import Mathlib

/-!
Verification development for the reflow single-host deployment manager.

The definitions below are a shallow embedding of the Go sources:
the per-project deployment state (internal/config/types.go), the docker
client wrapper (internal/docker/client.go), the nginx proxy controller
(internal/nginx/config.go), the deployment orchestrator
(orchestrator DeployTest / ApproveProd, orchestrator/cleanup.go,
orchestrator/destroy.go), the audit logger
(internal/deployment/reader.go), the env start/stop helpers
(app StopProjectEnv / StartProjectEnv) and the git checkout helper
(internal/git CheckoutCommit).

External collaborators (the docker daemon, the filesystem and go-git)
are modelled by an explicit `World` record plus an oracle record of
call outcomes, so that each workflow is a deterministic executable
function from (oracle, world, arguments) to (result, world).  The
control flow of each workflow, including the deferred rollback
handlers, is translated statement by statement from the source.

Vocabulary note.  The specification document describes environments as
staging/production and slots as A/B; the source uses the literal
strings "test"/"prod" for environments and "blue"/"green" for slots.
The tie-break rule of the spec (active A targets B, otherwise A,
empty targets B) matches the source (active "blue" targets "green",
otherwise "blue", empty targets "blue") exactly under the
correspondence  staging = "test", production = "prod",
B = "blue", A = "green";  the definitions `specEnvName` and
`specSlotName` below record this renaming.
-/

deriving instance DecidableEq for Except

set_option maxRecDepth 8192
set_option maxHeartbeats 1000000

namespace Reflow

/-- Go strings.ToLower, written over the character list so that it
evaluates by kernel reduction. -/
def strToLower (s : String) : String := ⟨s.data.map Char.toLower⟩

/-- Go strings.TrimSpace, written over the character list so that it
evaluates by kernel reduction. -/
def strTrim (s : String) : String :=
  ⟨((s.data.dropWhile Char.isWhitespace).reverse.dropWhile Char.isWhitespace).reverse⟩

/-! ### Data model (internal/config/types.go) -/

/-- `EnvironmentState` of types.go: deployment status of one environment.
All fields default to the empty string, meaning never deployed. -/
structure EnvironmentState where
  activeSlot : String := ""
  activeCommit : String := ""
  inactiveSlot : String := ""
  pendingCommit : String := ""
  deriving Repr, DecidableEq

/-- `ProjectState` of types.go: the content of apps/&lt;project&gt;/state.json,
with the per-environment keys `test` and `prod`. -/
structure ProjectState where
  test : EnvironmentState := {}
  prod : EnvironmentState := {}
  deriving Repr, DecidableEq

/-- `ProjectEnvConfig` of types.go. -/
structure ProjectEnvConfig where
  domain : String := ""
  envFile : String := ""
  deriving Repr, DecidableEq

/-- `ProjectConfig` of types.go.  `environments` is the YAML map keyed by
environment name, embedded as an association list. -/
structure ProjectConfig where
  projectName : String := ""
  githubRepo : String := ""
  appPort : Nat := 0
  nodeVersion : String := ""
  environments : List (String × ProjectEnvConfig) := []
  testDomainOverride : String := ""
  prodDomainOverride : String := ""
  deriving Repr, DecidableEq

/-- `GlobalConfig` of types.go. -/
structure GlobalConfig where
  defaultDomain : String := ""
  debug : Bool := false
  deriving Repr, DecidableEq

/-! ### Label and name constants (internal/docker/client.go, config/constants.go) -/

def LabelProject : String := "reflow.project"
def LabelEnvironment : String := "reflow.environment"
def LabelSlot : String := "reflow.slot"
def LabelCommit : String := "reflow.commit"
def LabelManaged : String := "reflow.managed"

def ReflowNetworkName : String := "reflow-network"
def ReflowNginxContainerName : String := "reflow-nginx"

/-! ### The external world

A docker container as the daemon reports it: identifier, canonical
name, labels and whether it is currently running. -/

structure DockerContainer where
  id : String
  name : String
  labels : List (String × String)
  running : Bool := true
  deriving Repr, DecidableEq

/-- The state of the host that the workflows manipulate: the containers
known to the docker daemon, the nginx conf.d fragment files
(filename, content), the per-project state.json (parsed; the on-disk
bytes are the fixed JSON serialization of this value, so equality of
`stateFile` fields is byte-identity of the file), the audit log lines of
deployments.log, the shared network, the base directory, and the
temporary build recipe file .reflow-dockerfile. -/
structure World where
  containers : List DockerContainer := []
  nginxConfs : List (String × String) := []
  stateFile : Option ProjectState := none
  deploymentsLog : List String := []
  images : List String := []
  networkExists : Bool := true
  baseDirExists : Bool := true
  tempDockerfile : Bool := false
  deriving Repr, DecidableEq

/-- Look up a proxy fragment file by name. -/
def confLookup (w : World) (file : String) : Option String :=
  (w.nginxConfs.find? (fun kv => kv.1 == file)).map (fun kv => kv.2)

/-- A docker reference (the client passes either the 64-char id or the
container name to stop/remove/inspect). -/
def refMatches (ref : String) (c : DockerContainer) : Bool :=
  c.id == ref || c.name == ref

/-! ### Oracle outcomes for the docker daemon calls -/

/-- Outcome of a ContainerStop daemon call, as client.go distinguishes
them: success, the error text "container not running" (mapped to
success by `StopContainer`), or another error. -/
inductive StopRes | ok | notRunning | fail
  deriving Repr, DecidableEq

/-- Outcome of a ContainerRemove / NetworkRemove daemon call: success,
a not-found error (mapped to success by `RemoveContainer`, and ignored
for the network by `DestroyReflow`), or another error. -/
inductive RemoveRes | ok | notFound | fail
  deriving Repr, DecidableEq

/-- Oracle for the docker daemon: outcome of each fallible call, keyed
by container reference where the code issues per-container calls. -/
structure DockerOps where
  stopRes : String → StopRes := fun _ => .ok
  startRes : String → StopRes := fun _ => .ok
  removeRes : String → RemoveRes := fun _ => .ok
  createOk : Bool := true
  startOk : Bool := true
  inspectConflictOk : Bool := true
  freshId : String := "aaaaaaaaaaaa"
  findOk : Bool := true
  killOk : Bool := true

/-! ### Docker client wrapper (internal/docker/client.go) -/

/-- `StopContainer` of client.go: a "container not running" daemon error
is logged and mapped to success; any other error is returned.  On
success the matching container is marked not running. -/
def StopContainer (ops : DockerOps) (w : World) (ref : String) :
    Except String Unit × World :=
  match ops.stopRes ref with
  | .ok =>
      (.ok (), { w with containers :=
        w.containers.map (fun c =>
          if refMatches ref c then { c with running := false } else c) })
  | .notRunning => (.ok (), w)
  | .fail => (.error ("failed to stop container " ++ ref), w)

/-- `RemoveContainer` of client.go: a not-found daemon error is mapped
to success; any other error is returned.  On success the matching
container disappears from the daemon. -/
def RemoveContainer (ops : DockerOps) (w : World) (ref : String) :
    Except String Unit × World :=
  match ops.removeRes ref with
  | .ok =>
      (.ok (), { w with containers :=
        w.containers.filter (fun c => !(refMatches ref c)) })
  | .notFound => (.ok (), w)
  | .fail => (.error ("failed to remove container " ++ ref), w)

/-- `StartContainer` of client.go: an already-running daemon error is
mapped to success; any other error is returned. -/
def StartContainer (ops : DockerOps) (w : World) (ref : String) :
    Except String Unit × World :=
  match ops.startRes ref with
  | .ok =>
      (.ok (), { w with containers :=
        w.containers.map (fun c =>
          if refMatches ref c then { c with running := true } else c) })
  | .notRunning => (.ok (), w)
  | .fail => (.error ("failed to start container " ++ ref), w)

/-- A container carries every requested (key, value) label pair. -/
def labelsSubset (want : List (String × String)) (c : DockerContainer) : Bool :=
  want.all (fun kv => c.labels.contains kv)

/-- `FindContainersByLabels` of client.go: lists all containers (running
or not) whose labels include every caller-supplied pair, and
UNCONDITIONALLY also the pair reflow.managed=true, which the function
adds to the filter itself. -/
def FindContainersByLabels (ops : DockerOps) (w : World)
    (labels : List (String × String)) : Except String (List DockerContainer) :=
  if ops.findOk then
    .ok (w.containers.filter (fun c =>
      labelsSubset labels c && c.labels.contains (LabelManaged, "true")))
  else .error "failed to list containers"

/-- `ContainerRunOptions` of client.go. -/
structure ContainerRunOptions where
  imageName : String
  containerName : String
  networkName : String
  labels : List (String × String)
  envVars : List String
  appPort : Nat
  restartPolicy : String
  deriving Repr, DecidableEq

/-- The Go `RunContainer` returns the pair (containerID, error); both
can be non-empty at once in the name-conflict path. -/
structure RunOutcome where
  id : String := ""
  err : Option String := none
  deriving Repr, DecidableEq

/-- `RunContainer` of client.go.  Create: a daemon name conflict (the
error text "is already in use by container", modelled as a container of
that name existing) makes the function inspect the existing container
and return ITS id together with a non-nil error; create can also fail
for other reasons.  After a successful create, start; a start failure
removes the fresh container and returns an error. -/
def RunContainer (ops : DockerOps) (w : World) (o : ContainerRunOptions) :
    RunOutcome × World :=
  match w.containers.find? (fun c => c.name == o.containerName) with
  | some existing =>
      if ops.inspectConflictOk then
        ({ id := existing.id,
           err := some ("container named " ++ o.containerName ++ " already exists") }, w)
      else
        ({ id := "",
           err := some ("container named " ++ o.containerName ++ " already exists, but failed to inspect") }, w)
  | none =>
      if !ops.createOk then
        ({ id := "", err := some ("failed to create container " ++ o.containerName) }, w)
      else
        let newC : DockerContainer :=
          { id := ops.freshId, name := o.containerName,
            labels := o.labels, running := false }
        let w1 := { w with containers := w.containers ++ [newC] }
        if ops.startOk then
          ({ id := ops.freshId, err := none },
           { w1 with containers := w1.containers.map (fun c =>
               if c.id == ops.freshId then { c with running := true } else c) })
        else
          let res := RemoveContainer ops w1 ops.freshId
          ({ id := "", err := some ("failed to start container " ++ o.containerName) }, res.2)

/-! ### Domain resolution (internal/config/config.go, GetEffectiveDomain) -/

/-- `GetEffectiveDomain` of config.go.  Priority: command-line override,
explicit environments.&lt;env&gt;.domain, computed default
&lt;project&gt;-&lt;env&gt;.&lt;defaultDomain&gt;.  Errors when the environment is not
"test"/"prod", when the environments map lacks the key, or when no
domain source yields a value. -/
def GetEffectiveDomain (g : GlobalConfig) (p : ProjectConfig) (env : String) :
    Except String String :=
  let lenv := strToLower env
  let pick : String → Except String String := fun override =>
    match p.environments.find? (fun kv => kv.1 == (if lenv == "test" then "test" else "prod")) with
    | none =>
        if p.environments == [] then
          .error ("environments map is nil in project config for " ++ p.projectName)
        else
          .error ("environment " ++ env ++ " not defined in project config for " ++ p.projectName)
    | some kv =>
        if override != "" then .ok override
        else if kv.2.domain != "" then .ok kv.2.domain
        else if g.defaultDomain == "" then
          .error ("cannot calculate default domain for " ++ p.projectName)
        else
          .ok (p.projectName ++ "-" ++ lenv ++ "." ++ g.defaultDomain)
  if lenv == "test" then pick p.testDomainOverride
  else if lenv == "prod" then pick p.prodDomainOverride
  else .error ("invalid environment specified: " ++ env)

/-! ### Proxy controller (internal/nginx/config.go) -/

/-- `TemplateData` of nginx/config.go. -/
structure TemplateData where
  projectName : String
  env : String
  slot : String
  containerName : String
  domain : String
  appPort : Nat
  deriving Repr, DecidableEq

/-- `GenerateNginxConfig` of nginx/config.go.  The Go function renders a
fixed text/template; this embedding keeps every substitution point
(the upstream name, the `server containerName:appPort;` upstream line,
the server_name domain and the per-environment log paths) and omits the
constant boilerplate lines of the template, so the rendering stays an
injective function of the data. -/
def GenerateNginxConfig (d : TemplateData) : String :=
  "upstream reflow_" ++ d.projectName ++ "_" ++ d.env ++ "_" ++ d.slot ++
    "_upstream server " ++ d.containerName ++ ":" ++ toString d.appPort ++
    "; server_name " ++ d.domain ++
    "; access_log /var/log/nginx/" ++ d.projectName ++ "." ++ d.env ++ ".access.log;"

/-- The conf.d fragment filename `WriteNginxConfig` uses:
&lt;project&gt;.&lt;env&gt;.conf . -/
def nginxConfFileName (projectName env : String) : String :=
  projectName ++ "." ++ env ++ ".conf"

/-- `WriteNginxConfig` of nginx/config.go: whole-file replacement of the
(project, env) fragment. -/
def WriteNginxConfig (w : World) (projectName env content : String) : World :=
  let file := nginxConfFileName projectName env
  { w with nginxConfs :=
      (w.nginxConfs.filter (fun kv => kv.1 != file)) ++ [(file, content)] }

/-- `ReloadNginx` of nginx/config.go: inspects the reflow-nginx
container (error when missing), refuses when it is not running, then
sends the HUP signal (error when the kill call fails) and settles. -/
def ReloadNginx (ops : DockerOps) (w : World) : Except String Unit :=
  match w.containers.find? (fun c => c.name == ReflowNginxContainerName) with
  | none => .error ("nginx container " ++ ReflowNginxContainerName ++ " not found")
  | some c =>
      if !c.running then
        .error ("nginx container " ++ ReflowNginxContainerName ++ " is not running")
      else if ops.killOk then .ok ()
      else .error "failed to reload nginx signal"

/-! ### Slot selection and the successful-deployment state update -/

/-- The slot tie-break of DeployTest step 4 and ApproveProd step 3:
if the stored active slot is "blue" the inactive target is "green",
otherwise (including the never-deployed empty string) "blue". -/
def chooseInactiveSlot (activeSlot : String) : String :=
  if activeSlot == "blue" then "green" else "blue"

/-- The state update both workflows perform after a successful rollout
(DeployTest step 10, ApproveProd step 9): the targeted slot becomes
active with the deployed commit, the recorded inactive slot becomes the
opposite of the new active slot, and pendingCommit is cleared. -/
def deploySuccessStep (commit : String) (s : EnvironmentState) : EnvironmentState :=
  let inactive := chooseInactiveSlot s.activeSlot
  { activeSlot := inactive
    activeCommit := commit
    inactiveSlot := chooseInactiveSlot inactive
    pendingCommit := "" }

/-- The spec names environments staging/production where the source
uses the strings "test"/"prod" (the state file keys are documented as
preserved for compatibility). -/
def specEnvName (env : String) : String :=
  if env == "test" then "staging"
  else if env == "prod" then "production" else env

/-- The spec names slots A/B where the source uses "blue"/"green".
The direction of the correspondence is fixed by the tie-break rule
(spec: empty targets B; source: empty targets "blue") and by the
first-deployment scenario: B = "blue", A = "green". -/
def specSlotName (slot : String) : String :=
  if slot == "blue" then "B"
  else if slot == "green" then "A" else slot

/-! ### Deploy-to-Staging (orchestrator DeployTest) -/

/-- Oracle for a DeployTest run: the results of the external calls the
workflow makes, in program order.  `projCfg` is the result of
LoadProjectConfig (none = error), `stateLoadFails` makes
LoadProjectState fail (the workflow tolerates this and assumes a first
deployment), `globalCfg` none means LoadGlobalConfig failed (tolerated
with a zero value), `resolveHash` is the full commit hash
ResolveRevision produces (none = error), `envVars` the lines
loadEnvFile reads.  `healthOk` abstracts the 60 s / 5 s probe loop: it
is true exactly when some probe within the window succeeds. -/
structure DeployOps where
  docker : DockerOps := {}
  projCfg : Option ProjectConfig := none
  stateLoadFails : Bool := false
  globalCfg : Option GlobalConfig := none
  fetchOk : Bool := true
  resolveHash : Option String := none
  checkoutOk : Bool := true
  writeDockerfileOk : Bool := true
  buildOk : Bool := true
  loadEnvOk : Bool := true
  envVars : List String := []
  healthOk : Bool := true
  writeNginxOk : Bool := true
  saveStateOk : Bool := true

/-- Step 6 of DeployTest (and step 5 of ApproveProd): for each container
found in the inactive slot, stop it (the error is discarded with `_ =`)
and remove it (a removal error is only logged; the loop and the
workflow continue). -/
def purgeOld (dops : DockerOps) : World → List DockerContainer → World
  | w, [] => w
  | w, c :: rest =>
      let s := StopContainer dops w c.id
      let r := RemoveContainer dops s.2 c.id
      purgeOld dops r.2 rest

/-- Intermediate result of the body of DeployTest, before the deferred
handler runs: the error result, the world, the `newContainerID`
variable and whether `dockerfilePath` was set (both drive the defer). -/
structure DeployBodyOut where
  result : Except String Unit
  world : World
  newContainerID : String
  dockerfileSet : Bool

/-- Steps 8–10 of DeployTest: the health-probe loop, the nginx switch
and the state write, entered with the new container already started. -/
def deployStageFinish (ops : DeployOps) (projCfg : ProjectConfig)
    (projState : ProjectState) (globalCfg : GlobalConfig)
    (projectName commitHash inactiveSlot containerName newContainerID : String)
    (w3 : World) : DeployBodyOut :=
  -- 8. Health check loop (60 s, 5 s cadence).
  if !ops.healthOk then
    ⟨.error ("container " ++ containerName ++ " failed health check: timed out"),
     w3, newContainerID, true⟩
  else
  -- 9. Update nginx: resolve domain, render, write, reload.
  match GetEffectiveDomain globalCfg projCfg "test" with
  | .error e =>
      ⟨.error ("failed to determine domain for nginx config: " ++ e),
       w3, newContainerID, true⟩
  | .ok domain =>
    let nginxConfContent := GenerateNginxConfig
      { projectName := projectName, env := "test", slot := inactiveSlot,
        containerName := containerName, domain := domain,
        appPort := projCfg.appPort }
    if !ops.writeNginxOk then
      ⟨.error "failed to write nginx config", w3, newContainerID, true⟩
    else
    let w4 := WriteNginxConfig w3 projectName "test" nginxConfContent
    match ReloadNginx ops.docker w4 with
    | .error e =>
        ⟨.error ("failed to reload nginx: " ++ e), w4, newContainerID, true⟩
    | .ok _ =>
      -- 10. Update state: activeSlot := inactiveSlot, commit,
      -- pendingCommit cleared, inactiveSlot := the opposite.
      let newState : ProjectState :=
        { projState with test :=
            { activeSlot := inactiveSlot
              activeCommit := commitHash
              inactiveSlot := chooseInactiveSlot inactiveSlot
              pendingCommit := "" } }
      if !ops.saveStateOk then
        ⟨.error "CRITICAL: Deployment successful, but failed to save updated state",
         w4, newContainerID, true⟩
      else
        ⟨.ok (), { w4 with stateFile := some newState }, newContainerID, true⟩

/-- Step 7 of DeployTest: load the env file and create+start the new
container (the run options taken verbatim from the source). -/
def deployStageLaunch (ops : DeployOps) (projCfg : ProjectConfig)
    (projState : ProjectState) (globalCfg : GlobalConfig)
    (projectName commitHash inactiveSlot : String) (w2 : World) : DeployBodyOut :=
  let containerName :=
    strToLower projectName ++ "-test-" ++ inactiveSlot ++ "-" ++ commitHash.take 7
  if !ops.loadEnvOk then
    ⟨.error "failed to load environment variables", w2, "", true⟩
  else
  let envVars := ops.envVars ++ ["PORT=" ++ toString projCfg.appPort]
  let newLabels := [(LabelManaged, "true"),
                    (LabelProject, projectName),
                    (LabelEnvironment, "test"),
                    (LabelSlot, inactiveSlot),
                    (LabelCommit, commitHash)]
  let runOptions : ContainerRunOptions :=
    { imageName := strToLower projectName ++ ":" ++ commitHash,
      containerName := containerName,
      networkName := ReflowNetworkName, labels := newLabels,
      envVars := envVars, appPort := projCfg.appPort,
      restartPolicy := "unless-stopped" }
  let run := RunContainer ops.docker w2 runOptions
  match run.1.err with
  | some e =>
      ⟨.error ("failed to run new container: " ++ e), run.2, run.1.id, true⟩
  | none =>
      deployStageFinish ops projCfg projState globalCfg
        projectName commitHash inactiveSlot containerName run.1.id run.2

/-- Steps 5–6 of DeployTest: write the recipe, build the image, purge
the prior inactive-slot containers. -/
def deployStageBuild (ops : DeployOps) (projCfg : ProjectConfig)
    (projState : ProjectState) (globalCfg : GlobalConfig)
    (projectName commitHash : String) (w0 : World) : DeployBodyOut :=
  -- 4. Identify slots.
  let inactiveSlot := chooseInactiveSlot projState.test.activeSlot
  -- 5. Build image (dockerfilePath is set before the write).
  let imageTag := strToLower projectName ++ ":" ++ commitHash
  if !ops.writeDockerfileOk then
    ⟨.error "failed to write temporary dockerfile", w0, "", true⟩
  else
  let wd := { w0 with tempDockerfile := true }
  if !ops.buildOk then
    ⟨.error "docker image build failed", wd, "", true⟩
  else
  -- A successful build leaves the tagged image in the local store.
  let w1 := { wd with images :=
    if wd.images.contains imageTag then wd.images else wd.images ++ [imageTag] }
  -- 6. Stop/remove old inactive containers.
  let oldLabels := [(LabelProject, projectName),
                    (LabelEnvironment, "test"),
                    (LabelSlot, inactiveSlot)]
  match FindContainersByLabels ops.docker w1 oldLabels with
  | .error e =>
      ⟨.error ("failed to check for old inactive containers: " ++ e), w1, "", true⟩
  | .ok oldContainers =>
      deployStageLaunch ops projCfg projState globalCfg
        projectName commitHash inactiveSlot (purgeOld ops.docker w1 oldContainers)

/-- The body of `DeployTest` (orchestrator), translated statement by
statement (steps 1–3 here, the rest in the stage functions above); the
deferred rollback handler is applied afterwards by `DeployTest`. -/
def DeployTestBody (ops : DeployOps) (w0 : World)
    (projectName commitIsh : String) : DeployBodyOut :=
  -- 1. Load configs; state and global config failures are tolerated.
  match ops.projCfg with
  | none => ⟨.error "failed to load project config", w0, "", false⟩
  | some projCfg =>
    let projState : ProjectState :=
      if ops.stateLoadFails then {} else w0.stateFile.getD {}
    let globalCfg : GlobalConfig := ops.globalCfg.getD {}
    -- 2. Determine target commit.
    let targetCommitIsh := if commitIsh == "" then "HEAD" else commitIsh
    -- 3. Fetch, resolve, checkout.
    if !ops.fetchOk then
      ⟨.error "failed to fetch repository updates", w0, "", false⟩
    else
      match ops.resolveHash with
      | none => ⟨.error ("failed to resolve revision " ++ targetCommitIsh), w0, "", false⟩
      | some commitHash =>
        if !ops.checkoutOk then
          ⟨.error ("failed to checkout commit " ++ commitHash), w0, "", false⟩
        else
          deployStageBuild ops projCfg projState globalCfg projectName commitHash w0

/-- The deferred handler of DeployTest and ApproveProd: when the
workflow returns a non-nil error AND newContainerID is non-empty, stop
and remove that container (both on a fresh background context, results
only logged); then remove the temporary dockerfile when its path was
set. -/
def deployDefer (dops : DockerOps) (o : DeployBodyOut) : World :=
  let w1 :=
    match o.result with
    | .ok _ => o.world
    | .error _ =>
        if o.newContainerID != "" then
          let s := StopContainer dops o.world o.newContainerID
          let r := RemoveContainer dops s.2 o.newContainerID
          r.2
        else o.world
  if o.dockerfileSet then { w1 with tempDockerfile := false } else w1

/-- `DeployTest` of the orchestrator: the body followed by the deferred
rollback handler. -/
def DeployTest (ops : DeployOps) (w0 : World)
    (projectName commitIsh : String) : Except String Unit × World :=
  let o := DeployTestBody ops w0 projectName commitIsh
  (o.result, deployDefer ops.docker o)

/-! ### Promote-to-Prod (orchestrator ApproveProd) -/

/-- Oracle for an ApproveProd run.  Unlike DeployTest, a failure of
LoadProjectState aborts the workflow.  `findImageOk` is the result of
the ImageList daemon call; whether the approved image is present is
read from the world. -/
structure ApproveOps where
  docker : DockerOps := {}
  projCfg : Option ProjectConfig := none
  stateLoadFails : Bool := false
  globalCfg : Option GlobalConfig := none
  findImageOk : Bool := true
  loadEnvOk : Bool := true
  envVars : List String := []
  healthOk : Bool := true
  writeNginxOk : Bool := true
  saveStateOk : Bool := true

/-- `FindImage` of docker (lookup by exact tag over ImageList; a nil
result with nil error means not found). -/
def FindImage (ops : ApproveOps) (w : World) (imageRef : String) :
    Except String Bool :=
  if ops.findImageOk then .ok (w.images.contains imageRef)
  else .error "failed to list images"

/-- Steps 7–9 of ApproveProd: health probe, prod nginx switch, prod
state write. -/
def approveStageFinish (ops : ApproveOps) (projCfg : ProjectConfig)
    (projState : ProjectState) (globalCfg : GlobalConfig)
    (projectName approvedCommitHash prodInactiveSlot containerName newContainerID : String)
    (w3 : World) : DeployBodyOut :=
  if !ops.healthOk then
    ⟨.error ("prod container " ++ containerName ++ " failed health check: timed out"),
     w3, newContainerID, false⟩
  else
  match GetEffectiveDomain globalCfg projCfg "prod" with
  | .error e =>
      ⟨.error ("failed to determine prod domain for nginx config: " ++ e),
       w3, newContainerID, false⟩
  | .ok prodDomain =>
    let nginxConfContent := GenerateNginxConfig
      { projectName := projectName, env := "prod", slot := prodInactiveSlot,
        containerName := containerName, domain := prodDomain,
        appPort := projCfg.appPort }
    if !ops.writeNginxOk then
      ⟨.error "failed to write prod nginx config", w3, newContainerID, false⟩
    else
    let w4 := WriteNginxConfig w3 projectName "prod" nginxConfContent
    match ReloadNginx ops.docker w4 with
    | .error e =>
        ⟨.error ("failed to reload nginx for prod deployment: " ++ e),
         w4, newContainerID, false⟩
    | .ok _ =>
      let newState : ProjectState :=
        { projState with prod :=
            { activeSlot := prodInactiveSlot
              activeCommit := approvedCommitHash
              inactiveSlot := chooseInactiveSlot prodInactiveSlot
              pendingCommit := "" } }
      if !ops.saveStateOk then
        ⟨.error "CRITICAL: Promotion successful, but failed to save updated prod state",
         w4, newContainerID, false⟩
      else
        ⟨.ok (), { w4 with stateFile := some newState }, newContainerID, false⟩

/-- Step 6 of ApproveProd: load the prod env file and create+start the
new prod container. -/
def approveStageLaunch (ops : ApproveOps) (projCfg : ProjectConfig)
    (projState : ProjectState) (globalCfg : GlobalConfig)
    (projectName approvedCommitHash prodInactiveSlot : String)
    (w2 : World) : DeployBodyOut :=
  let containerName :=
    strToLower projectName ++ "-prod-" ++ prodInactiveSlot ++ "-" ++
      approvedCommitHash.take 7
  if !ops.loadEnvOk then
    ⟨.error "failed to load prod environment variables", w2, "", false⟩
  else
  let envVars := ops.envVars ++ ["PORT=" ++ toString projCfg.appPort]
  let newProdLabels := [(LabelManaged, "true"),
                        (LabelProject, projectName),
                        (LabelEnvironment, "prod"),
                        (LabelSlot, prodInactiveSlot),
                        (LabelCommit, approvedCommitHash)]
  let runOptions : ContainerRunOptions :=
    { imageName := strToLower projectName ++ ":" ++ approvedCommitHash,
      containerName := containerName,
      networkName := ReflowNetworkName, labels := newProdLabels,
      envVars := envVars, appPort := projCfg.appPort,
      restartPolicy := "unless-stopped" }
  let run := RunContainer ops.docker w2 runOptions
  match run.1.err with
  | some e =>
      ⟨.error ("failed to run new prod container: " ++ e), run.2, run.1.id, false⟩
  | none =>
      approveStageFinish ops projCfg projState globalCfg
        projectName approvedCommitHash prodInactiveSlot containerName run.1.id run.2

/-- The body of `ApproveProd` (orchestrator), translated statement by
statement; the deferred rollback handler (identical to DeployTest's,
without a dockerfile to delete) is applied afterwards. -/
def ApproveProdBody (ops : ApproveOps) (w0 : World)
    (projectName : String) : DeployBodyOut :=
  -- 1. Load configs; here a state load failure aborts.
  match ops.projCfg with
  | none => ⟨.error "failed to load project config", w0, "", false⟩
  | some projCfg =>
    if ops.stateLoadFails then
      ⟨.error "failed to load project state", w0, "", false⟩
    else
    let projState : ProjectState := w0.stateFile.getD {}
    let globalCfg : GlobalConfig := ops.globalCfg.getD {}
    -- 2. Refuse unless the test environment has an active deployment.
    if projState.test.activeCommit == "" || projState.test.activeSlot == "" then
      ⟨.error ("no active deployment found in test environment for project " ++ projectName),
       w0, "", false⟩
    else
    let approvedCommitHash := projState.test.activeCommit
    -- 3. Identify prod slots by the same tie-break.
    let prodActiveSlot := projState.prod.activeSlot
    let prodInactiveSlot := chooseInactiveSlot prodActiveSlot
    -- 4. The image built for the approved commit must exist locally.
    let imageTag := strToLower projectName ++ ":" ++ approvedCommitHash
    match FindImage ops w0 imageTag with
    | .error e => ⟨.error ("error checking for image " ++ imageTag ++ ": " ++ e), w0, "", false⟩
    | .ok present =>
      if !present then
        ⟨.error ("approved image " ++ imageTag ++ " not found locally"), w0, "", false⟩
      else
      -- 5. Stop/remove old inactive prod containers.
      let oldProdLabels := [(LabelProject, projectName),
                            (LabelEnvironment, "prod"),
                            (LabelSlot, prodInactiveSlot)]
      match FindContainersByLabels ops.docker w0 oldProdLabels with
      | .error e =>
          ⟨.error ("failed to check for old inactive prod containers: " ++ e), w0, "", false⟩
      | .ok oldProdContainers =>
          approveStageLaunch ops projCfg projState globalCfg
            projectName approvedCommitHash prodInactiveSlot
            (purgeOld ops.docker w0 oldProdContainers)

/-- `ApproveProd` of the orchestrator: the body followed by the
deferred rollback handler. -/
def ApproveProd (ops : ApproveOps) (w0 : World)
    (projectName : String) : Except String Unit × World :=
  let o := ApproveProdBody ops w0 projectName
  (o.result, deployDefer ops.docker o)

/-! ### Audit log (internal/deployment/reader.go) -/

/-- `DeploymentEvent` of config/constants.go.  The timestamp is an
abstract tick. -/
structure DeploymentEvent where
  timestamp : Nat := 0
  eventType : String := ""
  projectName : String := ""
  environment : String := ""
  commitSHA : String := ""
  outcome : String := ""
  errorMessage : String := ""
  durationMs : Nat := 0
  triggeredBy : String := ""
  deriving Repr, DecidableEq

/-- The JSON line `LogEvent` marshals; one injective rendering standing
for the fixed json.Marshal serialization. -/
def serializeEvent (e : DeploymentEvent) : String :=
  "timestamp:" ++ toString e.timestamp ++ ",eventType:" ++ e.eventType ++
  ",projectName:" ++ e.projectName ++ ",environment:" ++ e.environment ++
  ",commitSHA:" ++ e.commitSHA ++ ",outcome:" ++ e.outcome ++
  ",errorMessage:" ++ e.errorMessage ++ ",durationMs:" ++ toString e.durationMs ++
  ",triggeredBy:" ++ e.triggeredBy

/-- `LogEvent` of deployment/reader.go: under the in-process mutex,
append one newline-terminated NDJSON line to the project's
deployments.log.  Failures (directory creation, marshal, open, write)
are only logged (`ok := false` models any of them). -/
def LogEvent (w : World) (event : DeploymentEvent) (ok : Bool := true) : World :=
  if ok then
    { w with deploymentsLog := w.deploymentsLog ++ [serializeEvent event ++ "\n"] }
  else w

/-! ### CLI command wrappers (cmd/deploy/deploy.go, AddApproveCommand)

The RunE of the `deploy` command resolves the base path and calls
orchestrator.DeployTest; the RunE of the `approve` command calls
orchestrator.ApproveProd.  Neither they, the orchestrator workflows,
nor the HTTP handlers (api/server.go handleDeployProject /
handleApproveProject, which call the same two functions) ever invoke
deployment.LogEvent. -/

/-- RunE of AddDeployCommand: exactly a DeployTest call. -/
def deployCommandRun (ops : DeployOps) (w : World)
    (projectName commitIsh : String) : Except String Unit × World :=
  DeployTest ops w projectName commitIsh

/-- RunE of AddApproveCommand: exactly an ApproveProd call. -/
def approveCommandRun (ops : ApproveOps) (w : World)
    (projectName : String) : Except String Unit × World :=
  ApproveProd ops w projectName

/-! ### Cleanup (internal/orchestrator/cleanup.go) -/

/-- The label value of a container for a key, "" when absent (Go map
indexing). -/
def labelValue (c : DockerContainer) (k : String) : String :=
  ((c.labels.find? (fun kv => kv.1 == k)).map (fun kv => kv.2)).getD ""

/-- Oracle for CleanupProjectEnv / StopProjectEnv: whether
LoadProjectState succeeds, plus the docker call outcomes. -/
structure CleanupOps where
  docker : DockerOps := {}
  stateLoadFails : Bool := false

/-- The removal loop of `CleanupProjectEnv`: a container is inactive
when its slot label differs from the active slot or its commit label
differs from the active commit; inactive ones are stopped (error
ignored) and removed (errors collected, successes counted). -/
def cleanupLoop (dops : DockerOps) (activeSlot activeCommit : String) :
    World → List DockerContainer → (World × Nat × List String)
  | w, [] => (w, 0, [])
  | w, c :: rest =>
      let isInactive :=
        labelValue c LabelSlot != activeSlot ||
        labelValue c LabelCommit != activeCommit
      if isInactive then
        let s := StopContainer dops w c.id
        let r := RemoveContainer dops s.2 c.id
        let next := cleanupLoop dops activeSlot activeCommit r.2 rest
        match r.1 with
        | .ok _ => (next.1, next.2.1 + 1, next.2.2)
        | .error e => (next.1, next.2.1, e :: next.2.2)
      else
        cleanupLoop dops activeSlot activeCommit w rest

/-- `CleanupProjectEnv` of cleanup.go: load state, read the active
(slot, commit) tuple of the requested environment, list every managed
container of the (project, env) pair and remove each inactive one;
collected removal errors are joined into one error at the end. -/
def CleanupProjectEnv (ops : CleanupOps) (w : World)
    (projectName env : String) : (Except String Nat) × World :=
  if ops.stateLoadFails then
    (.error ("failed to load project state for " ++ projectName), w)
  else
  let projState := w.stateFile.getD {}
  if env != "test" && env != "prod" then
    (.error ("invalid environment specified: " ++ env), w)
  else
  let activeSlot :=
    if env == "test" then projState.test.activeSlot else projState.prod.activeSlot
  let activeCommit :=
    if env == "test" then projState.test.activeCommit else projState.prod.activeCommit
  if activeCommit == "" || activeSlot == "" then (.ok 0, w)
  else
  let baseLabels := [(LabelProject, projectName), (LabelEnvironment, env)]
  match FindContainersByLabels ops.docker w baseLabels with
  | .error e => (.error ("failed to find containers: " ++ e), w)
  | .ok allContainers =>
      if allContainers == [] then (.ok 0, w)
      else
        let res := cleanupLoop ops.docker activeSlot activeCommit w allContainers
        if res.2.2 == [] then (.ok res.2.1, res.1)
        else (.error ("encountered errors during container cleanup: " ++
                      String.intercalate " - " res.2.2), res.1)

/-! ### Start / Stop project-env (app StopProjectEnv / StartProjectEnv) -/

/-- The stop loop of `StopProjectEnv`: stop each container found, count
the successes (failures only logged). -/
def stopLoop (dops : DockerOps) : World → List DockerContainer → (World × Nat)
  | w, [] => (w, 0)
  | w, c :: rest =>
      let s := StopContainer dops w c.id
      let next := stopLoop dops s.2 rest
      match s.1 with
      | .ok _ => (next.1, next.2 + 1)
      | .error _ => (next.1, next.2)

/-- `StopProjectEnv` of the app package: load state, resolve the active
slot of the environment, find the containers labeled
(project, env, slot=activeSlot) — through FindContainersByLabels, hence
managed only — and stop each; an error only when every stop failed. -/
def StopProjectEnv (ops : CleanupOps) (w : World)
    (projectName env : String) : Except String Unit × World :=
  if ops.stateLoadFails then
    (.error ("failed to load project state for " ++ projectName), w)
  else
  let projState := w.stateFile.getD {}
  if env != "test" && env != "prod" then
    (.error ("invalid environment specified: " ++ env), w)
  else
  let activeSlot :=
    if env == "test" then projState.test.activeSlot else projState.prod.activeSlot
  let activeCommit :=
    if env == "test" then projState.test.activeCommit else projState.prod.activeCommit
  if activeCommit == "" || activeSlot == "" then (.ok (), w)
  else
  let labels := [(LabelProject, projectName), (LabelEnvironment, env),
                 (LabelSlot, activeSlot)]
  match FindContainersByLabels ops.docker w labels with
  | .error e => (.error ("failed to find containers: " ++ e), w)
  | .ok containers =>
      if containers == [] then (.ok (), w)
      else
        let res := stopLoop ops.docker w containers
        if res.2 == 0 then
          (.error "attempted to stop containers, but failed for all", res.1)
        else (.ok (), res.1)

/-- The start loop of `StartProjectEnv`: a container already running
counts as started without a daemon call; otherwise start it and count
the successes (failures only logged). -/
def startLoop (dops : DockerOps) : World → List DockerContainer → (World × Nat)
  | w, [] => (w, 0)
  | w, c :: rest =>
      if c.running then
        let next := startLoop dops w rest
        (next.1, next.2 + 1)
      else
        let s := StartContainer dops w c.id
        let next := startLoop dops s.2 rest
        match s.1 with
        | .ok _ => (next.1, next.2 + 1)
        | .error _ => (next.1, next.2)

/-- `StartProjectEnv` of the app package: the mirror of StopProjectEnv,
starting the containers found for the active slot. -/
def StartProjectEnv (ops : CleanupOps) (w : World)
    (projectName env : String) : Except String Unit × World :=
  if ops.stateLoadFails then
    (.error ("failed to load project state for " ++ projectName), w)
  else
  let projState := w.stateFile.getD {}
  if env != "test" && env != "prod" then
    (.error ("invalid environment specified: " ++ env), w)
  else
  let activeSlot :=
    if env == "test" then projState.test.activeSlot else projState.prod.activeSlot
  let activeCommit :=
    if env == "test" then projState.test.activeCommit else projState.prod.activeCommit
  if activeCommit == "" || activeSlot == "" then (.ok (), w)
  else
  let labels := [(LabelProject, projectName), (LabelEnvironment, env),
                 (LabelSlot, activeSlot)]
  match FindContainersByLabels ops.docker w labels with
  | .error e => (.error ("failed to find containers: " ++ e), w)
  | .ok containers =>
      if containers == [] then (.ok (), w)
      else
        let res := startLoop ops.docker w containers
        if res.2 == 0 then
          (.error "attempted to start containers, but failed for all", res.1)
        else (.ok (), res.1)

/-! ### Destroy-All (internal/orchestrator/destroy.go, DestroyReflow) -/

/-- An installed plugin as destroy.go reads it from plugins.json. -/
structure PluginEntry where
  name : String
  typeIsContainer : Bool := false
  containerId : String := ""
  nginxConfigOk : Bool := false
  deriving Repr, DecidableEq

/-- Oracle for DestroyReflow. -/
structure DestroyOps where
  docker : DockerOps := {}
  pluginState : Except String (List PluginEntry) := .ok []
  networkRemoveRes : RemoveRes := .ok
  removeBaseDirOk : Bool := true
  confirmInput : String := "yes"

/-- Remove a conf.d fragment file (os.Remove; RemovePluginNginx). -/
def removeConfFile (w : World) (file : String) : World :=
  { w with nginxConfs := w.nginxConfs.filter (fun kv => kv.1 != file) }

/-- The plugin cleanup loop of DestroyReflow: per container plugin,
stop its container (ignored), remove it (first error recorded unless
not-found), and delete its plugin.&lt;name&gt;.conf fragment (errors only
logged). -/
def destroyPluginLoop (dops : DockerOps) :
    World → Option String → List PluginEntry → (World × Option String)
  | w, firstErr, [] => (w, firstErr)
  | w, firstErr, p :: rest =>
      if p.typeIsContainer then
        let afterC :=
          if p.containerId != "" then
            let s := StopContainer dops w p.containerId
            let r := RemoveContainer dops s.2 p.containerId
            match r.1 with
            | .ok _ => (r.2, firstErr)
            | .error e => (r.2, firstErr.orElse (fun _ => some e))
          else (w, firstErr)
        let afterN :=
          if p.nginxConfigOk then
            removeConfFile afterC.1 ("plugin." ++ p.name ++ ".conf")
          else afterC.1
        destroyPluginLoop dops afterN afterC.2 rest
      else destroyPluginLoop dops w firstErr rest

/-- The app-container loop of DestroyReflow: stop each (ignored) and
remove each (first error recorded). -/
def destroyAppLoop (dops : DockerOps) :
    World → Option String → List DockerContainer → (World × Option String)
  | w, firstErr, [] => (w, firstErr)
  | w, firstErr, c :: rest =>
      let s := StopContainer dops w c.id
      let r := RemoveContainer dops s.2 c.id
      match r.1 with
      | .ok _ => destroyAppLoop dops r.2 firstErr rest
      | .error e => destroyAppLoop dops r.2 (firstErr.orElse (fun _ => some e)) rest

/-- `DestroyReflow` of destroy.go.  After confirmation (unless forced):
remove plugin resources; enumerate application containers with the
label filter (reflow.managed=true AND reflow.type=project) — this is
the filter the source passes to FindContainersByLabels — and stop and
remove each match; stop and remove the reflow-nginx container (a
not-found removal is ignored); remove the shared network (a not-found
error is ignored); recursively delete the base directory.  Errors are
accumulated (the first is kept, a base-directory error is appended) and
returned at the end; no stage stops the workflow. -/
def DestroyReflow (ops : DestroyOps) (w0 : World) (force : Bool) :
    Except String Unit × World :=
  if !force && (strTrim (strToLower ops.confirmInput) != "yes") then (.ok (), w0)
  else
  -- Plugin resources.
  let afterPlugins : World × Option String :=
    match ops.pluginState with
    | .error e => (w0, some ("failed to load plugin state: " ++ e))
    | .ok plugins => destroyPluginLoop ops.docker w0 none plugins
  -- Application containers: the filter destroy.go builds.
  let appLabels := [(LabelManaged, "true"), ("reflow.type", "project")]
  let afterApps : World × Option String :=
    match FindContainersByLabels ops.docker afterPlugins.1 appLabels with
    | .error e =>
        (afterPlugins.1,
         afterPlugins.2.orElse (fun _ => some ("failed to list reflow app containers: " ++ e)))
    | .ok allAppContainers =>
        destroyAppLoop ops.docker afterPlugins.1 afterPlugins.2 allAppContainers
  -- Nginx container.
  let sN := StopContainer ops.docker afterApps.1 ReflowNginxContainerName
  let rN := RemoveContainer ops.docker sN.2 ReflowNginxContainerName
  let afterNginx : World × Option String :=
    match rN.1 with
    | .ok _ => (rN.2, afterApps.2)
    | .error e => (rN.2, afterApps.2.orElse (fun _ => some e))
  -- Shared network (not-found ignored).
  let afterNet : World × Option String :=
    match ops.networkRemoveRes with
    | .ok => ({ afterNginx.1 with networkExists := false }, afterNginx.2)
    | .notFound => (afterNginx.1, afterNginx.2)
    | .fail =>
        (afterNginx.1,
         afterNginx.2.orElse (fun _ => some ("failed to remove network " ++ ReflowNetworkName)))
  -- Base directory (everything under it disappears).
  let afterBase : World × Option String :=
    if ops.removeBaseDirOk then
      ({ afterNet.1 with baseDirExists := false, stateFile := none,
                         nginxConfs := [], deploymentsLog := [],
                         tempDockerfile := false },
       afterNet.2)
    else
      (afterNet.1,
       match afterNet.2 with
       | none => some "failed to delete base directory"
       | some e => some (e ++ "; failed to delete base directory"))
  match afterBase.2 with
  | none => (.ok (), afterBase.1)
  | some e => (.error e, afterBase.1)

/-! ### Git checkout (internal/git CheckoutCommit)

The repository state as go-git exposes it to CheckoutCommit: a
revision table (what ResolveRevision answers), whether the worktree has
local modifications, and the checked-out position. -/

structure GitRepo where
  revs : List (String × String) := []
  dirty : Bool := false
  head : String := ""
  detachedHead : Bool := false
  deriving Repr, DecidableEq

/-- go-git CheckoutOptions, with the fields CheckoutCommit populates. -/
structure CheckoutOptions where
  create : Bool
  force : Bool
  hash : String := ""
  deriving Repr, DecidableEq

/-- go-git ResolveRevision over the repository's revision table. -/
def resolveRevision (repo : GitRepo) (rev : String) : Option String :=
  (repo.revs.find? (fun kv => kv.1 == rev)).map (fun kv => kv.2)

/-- Model of the go-git `Worktree.Checkout` operation, faithful to the
library the source calls: checking out a hash moves HEAD to that commit
(detached); when `Force` is false and the worktree contains local
modifications, the checkout is refused with the unstaged-changes error;
when `Force` is true the modifications are discarded instead. -/
def worktreeCheckout (repo : GitRepo) (opts : CheckoutOptions) :
    Except String GitRepo :=
  if !opts.force && repo.dirty then
    .error "worktree contains unstaged changes"
  else
    .ok { repo with head := opts.hash, detachedHead := true,
                    dirty := repo.dirty && !opts.force }

/-- `CheckoutCommit` of the git package: open the repository, build
CheckoutOptions with Create:=false and Force:=false, resolve the
revision, set the hash and run the worktree checkout. -/
def CheckoutCommit (repo : GitRepo) (commitHashOrBranch : String) :
    Except String GitRepo :=
  let checkoutOptions : CheckoutOptions := { create := false, force := false }
  match resolveRevision repo commitHashOrBranch with
  | none => .error ("failed to resolve revision " ++ commitHashOrBranch)
  | some hash =>
      worktreeCheckout repo { checkoutOptions with hash := hash }

/-! ### Concrete fixtures used by the theorems -/

/-- The proxy container created by init. -/
def nginxContainer : DockerContainer :=
  { id := "nginxid00000", name := ReflowNginxContainerName, labels := [], running := true }

/-- A project configuration as project-create writes it. -/
def myblogConfig : ProjectConfig :=
  { projectName := "myblog", appPort := 3000, nodeVersion := "18-alpine",
    environments := [("test", {}), ("prod", {})] }

/-- The full commit hash that the revision string abc1234 resolves to. -/
def abcHash : String := "abc1234def5678900000"

/-- Oracle for a deployment where every external call succeeds. -/
def okDeployOps : DeployOps :=
  { projCfg := some myblogConfig,
    globalCfg := some { defaultDomain := "example.com" },
    resolveHash := some abcHash }

/-- A freshly initialized host: only the proxy container, no state. -/
def initialWorld : World := { containers := [nginxContainer] }

/-! ### C1 -/

/-- C1.  The claim (from the spec): when Deploy-to-Staging reaches the
state-persistence step and saving fails, traffic is not reverted — the
newly activated container is left running, the failure only logged and
returned.  The code diverges: the deferred handler of DeployTest fires
on ANY non-nil error once newContainerID is set, and a SaveProjectState
failure returns a non-nil error, so the handler stops and removes the
container that is already serving traffic (the proxy file still points
at it).  This theorem evaluates DeployTest at the failing input:
everything succeeds except the state write. -/
theorem C1_state_persist_failure_rolls_back_live_container :
    (DeployTest { okDeployOps with saveStateOk := false } initialWorld "myblog" "abc1234").1
      = .error "CRITICAL: Deployment successful, but failed to save updated state" ∧
    -- traffic had already been switched: the proxy fragment names the new container
    confLookup (DeployTest { okDeployOps with saveStateOk := false }
        initialWorld "myblog" "abc1234").2 "myblog.test.conf"
      = some (GenerateNginxConfig
          { projectName := "myblog", env := "test", slot := "blue",
            containerName := "myblog-test-blue-abc1234",
            domain := "myblog-test.example.com", appPort := 3000 }) ∧
    -- yet the newly activated container was stopped and removed by the deferred handler
    (DeployTest { okDeployOps with saveStateOk := false }
        initialWorld "myblog" "abc1234").2.containers = [nginxContainer] ∧
    -- and no state was persisted
    (DeployTest { okDeployOps with saveStateOk := false }
        initialWorld "myblog" "abc1234").2.stateFile = none := by
  decide

/-! ### C2 -/

/-- C2.  The slot tie-break of DeployTest step 4: the targeted inactive
slot is "blue" for a stored active slot "green", "green" for "blue" and
"blue" for the empty (never-deployed) state — which under the spec's
naming (B = "blue", A = "green", staging = "test") reads: B when the
active slot is A, A otherwise, and B for the empty state.  A first
deployment of myblog at commit abc1234 produces the container the spec
renders as myblog-staging-B-abc1234 and a state file with active slot B
and inactive slot A. -/
theorem C2_slot_tie_break_and_first_deployment :
    (chooseInactiveSlot "green" = "blue" ∧ chooseInactiveSlot "blue" = "green" ∧
     chooseInactiveSlot "" = "blue") ∧
    (specSlotName (chooseInactiveSlot "green") = "B" ∧
     specSlotName (chooseInactiveSlot "blue") = "A" ∧
     specSlotName (chooseInactiveSlot "") = "B") ∧
    ((DeployTest okDeployOps initialWorld "myblog" "abc1234").1 = .ok () ∧
     (DeployTest okDeployOps initialWorld "myblog" "abc1234").2.containers.map
        (fun c => c.name) = [ReflowNginxContainerName, "myblog-test-blue-abc1234"] ∧
     (DeployTest okDeployOps initialWorld "myblog" "abc1234").2.stateFile
        = some { test := { activeSlot := "blue", activeCommit := abcHash,
                           inactiveSlot := "green", pendingCommit := "" } } ∧
     strToLower "myblog" ++ "-" ++ specEnvName "test" ++ "-" ++
        specSlotName "blue" ++ "-" ++ abcHash.take 7 = "myblog-staging-B-abc1234" ∧
     specSlotName "blue" = "B" ∧ specSlotName "green" = "A" ∧
     specEnvName "test" = "staging") := by
  decide

/-! ### C5 -/

/-- A container started by DeployTest, carrying exactly the labels of
step 7 (managed, project, environment, slot, commit — and nothing
else, in particular no reflow.type label). -/
def deployedAppContainer : DockerContainer :=
  { id := "appid0000000", name := "myblog-test-blue-abc1234",
    labels := [(LabelManaged, "true"), (LabelProject, "myblog"),
               (LabelEnvironment, "test"), (LabelSlot, "blue"),
               (LabelCommit, abcHash)],
    running := true }

/-- C5.  The claim (from the spec): Destroy-All enumerates every
managed container via the managed=true label alone and removes each,
project application containers included.  The code diverges: the
enumeration in DestroyReflow passes the filter
(reflow.managed=true AND reflow.type=project) to
FindContainersByLabels, and the containers DeployTest/ApproveProd
create never carry a reflow.type label, so no project application
container matches: a destroy run reports success, removes the proxy
container, the network and the base directory, yet leaves the managed
application container running. -/
theorem C5_destroy_skips_project_app_containers :
    deployedAppContainer.labels.contains (LabelManaged, "true") = true ∧
    labelsSubset [(LabelManaged, "true")] deployedAppContainer = true ∧
    labelsSubset [(LabelManaged, "true"), ("reflow.type", "project")]
      deployedAppContainer = false ∧
    (DestroyReflow {} { containers := [deployedAppContainer, nginxContainer] } true).1
      = .ok () ∧
    (DestroyReflow {} { containers := [deployedAppContainer, nginxContainer] } true).2.containers
      = [deployedAppContainer] ∧
    (DestroyReflow {} { containers := [deployedAppContainer, nginxContainer] } true).2.networkExists
      = false ∧
    (DestroyReflow {} { containers := [deployedAppContainer, nginxContainer] } true).2.baseDirExists
      = false := by
  decide

/-! ### C3 -/

/-- Proxy fragment content written by the deployment that produced
`stateActiveBlue`. -/
def oldConfContent : String := "upstream OLD"

/-- The container of the previous successful deployment (active slot
blue). -/
def prevBlueContainer : DockerContainer :=
  { id := "previd000000", name := "myblog-test-blue-old1234",
    labels := [(LabelManaged, "true"), (LabelProject, "myblog"),
               (LabelEnvironment, "test"), (LabelSlot, "blue"),
               (LabelCommit, "old1234aaaa")],
    running := true }

/-- State after one successful deployment in slot blue. -/
def stateActiveBlue : ProjectState :=
  { test := { activeSlot := "blue", activeCommit := "old1234aaaa",
              inactiveSlot := "green", pendingCommit := "" } }

/-- The host just before a second deployment. -/
def preDeployWorld : World :=
  { containers := [nginxContainer, prevBlueContainer],
    nginxConfs := [("myblog.test.conf", oldConfContent)],
    stateFile := some stateActiveBlue }

/-- The full hash the second deployment resolves to. -/
def defHash : String := "def5678900000000"

/-- Oracle for the second deployment. -/
def opsSecond : DeployOps := { okDeployOps with resolveHash := some defHash }

/-- C3 counterexample.  The claim says a failure at the proxy-reload
step leaves the proxy configuration file for (project, staging)
untouched.  In the source, WriteNginxConfig has already replaced the
fragment before ReloadNginx runs, and the rollback does not restore it:
after a reload failure the file holds the freshly rendered
configuration, not its pre-deployment content. -/
theorem C3_counterexample_reload_failure_leaves_new_proxy_file :
    (DeployTest { opsSecond with docker := { killOk := false } }
        preDeployWorld "myblog" "def5678").1
      = .error "failed to reload nginx: failed to reload nginx signal" ∧
    confLookup (DeployTest { opsSecond with docker := { killOk := false } }
        preDeployWorld "myblog" "def5678").2 "myblog.test.conf"
      ≠ some oldConfContent := by
  decide

/-- C3 amended: when Deploy-to-Staging fails at the health-probe step,
rollback stops and removes only the newly started container and leaves
the previous container, the proxy configuration file and the persisted
state untouched (byte-identical), with no container left in the
inactive slot; when it fails at the proxy-reload step the same holds
EXCEPT that the proxy configuration file keeps the freshly rendered
content the workflow wrote just before the reload.  Stated for an
arbitrary prior commit `oc`, prior fragment content `occ`, prior
recorded inactive slot / pending commit and prod state. -/
theorem C3_amended_rollback_trace (oc occ pc0 is0 : String)
    (prodSt : EnvironmentState) :
    let st0 : ProjectState :=
      { test := { activeSlot := "blue", activeCommit := oc,
                  inactiveSlot := is0, pendingCommit := pc0 },
        prod := prodSt }
    let prev : DockerContainer :=
      { id := "previd000000", name := "myblog-test-blue-old1234",
        labels := [(LabelManaged, "true"), (LabelProject, "myblog"),
                   (LabelEnvironment, "test"), (LabelSlot, "blue"),
                   (LabelCommit, oc)],
        running := true }
    let w0 : World :=
      { containers := [nginxContainer, prev],
        nginxConfs := [("myblog.test.conf", occ)],
        stateFile := some st0 }
    -- (a) health-probe failure: nothing is left behind at all
    (DeployTest { opsSecond with healthOk := false } w0 "myblog" "def5678"
      = (.error "container myblog-test-green-def5678 failed health check: timed out",
         { w0 with images := ["myblog:" ++ defHash] })) ∧
    -- (b) proxy-reload failure: identical, except the rewritten proxy fragment
    (DeployTest { opsSecond with docker := { killOk := false } } w0 "myblog" "def5678"
      = (.error "failed to reload nginx: failed to reload nginx signal",
         { w0 with images := ["myblog:" ++ defHash],
                   nginxConfs := [("myblog.test.conf",
                     GenerateNginxConfig
                       { projectName := "myblog", env := "test", slot := "green",
                         containerName := "myblog-test-green-def5678",
                         domain := "myblog-test.example.com", appPort := 3000 })] })) := by
  exact ⟨rfl, rfl⟩

/-! ### C6 -/

/-- A stale container still sitting in the inactive slot (green) from
two deployments ago. -/
def oldGreenContainer : DockerContainer :=
  { id := "oldid0000000", name := "myblog-test-green-old0000",
    labels := [(LabelManaged, "true"), (LabelProject, "myblog"),
               (LabelEnvironment, "test"), (LabelSlot, "green"),
               (LabelCommit, "old0000bbbb")],
    running := true }

/-- The host before the second deployment, with the stale inactive
container still present. -/
def worldWithStaleInactive : World :=
  { containers := [nginxContainer, prevBlueContainer, oldGreenContainer],
    nginxConfs := [("myblog.test.conf", oldConfContent)],
    stateFile := some stateActiveBlue }

/-- A daemon on which removing the stale container fails. -/
def removeFailsOld : DockerOps :=
  { removeRes := fun r => if r == "oldid0000000" then .fail else .ok }

/-- C6 counterexample.  The claim says any error while stopping or
removing an old inactive container aborts the workflow before a new
container is started.  In the source, the purge loop of step 6 discards
the stop error and only logs the remove error: with the removal of the
stale inactive container failing, the workflow still starts the new
container and completes successfully. -/
theorem C6_counterexample_remove_error_does_not_abort :
    (RemoveContainer removeFailsOld worldWithStaleInactive "oldid0000000").1
      = .error "failed to remove container oldid0000000" ∧
    (DeployTest { opsSecond with docker := removeFailsOld }
        worldWithStaleInactive "myblog" "def5678").1 = .ok () ∧
    ((DeployTest { opsSecond with docker := removeFailsOld }
        worldWithStaleInactive "myblog" "def5678").2.containers.map
        (fun c => c.name)).contains "myblog-test-green-def5678" = true := by
  decide

/-- C6 amended: in step 6 only a failure of the label query for the old
inactive containers aborts the workflow before a new container is
started (the world is left unchanged apart from the temporary recipe
file and the built image); errors stopping an old inactive container
are discarded and errors removing one are only logged, and the
workflow proceeds to start the new container. -/
theorem C6_amended_only_list_errors_abort (w0 : World) :
    ((DeployTest { opsSecond with docker := { findOk := false } } w0 "myblog" "def5678").1
       = .error "failed to check for old inactive containers: failed to list containers" ∧
     (DeployTest { opsSecond with docker := { findOk := false } } w0 "myblog" "def5678").2.containers
       = w0.containers ∧
     (DeployTest { opsSecond with docker := { findOk := false } } w0 "myblog" "def5678").2.stateFile
       = w0.stateFile ∧
     (DeployTest { opsSecond with docker := { findOk := false } } w0 "myblog" "def5678").2.nginxConfs
       = w0.nginxConfs) ∧
    ((DeployTest { opsSecond with docker := removeFailsOld }
        worldWithStaleInactive "myblog" "def5678").1 = .ok () ∧
     ((DeployTest { opsSecond with docker := removeFailsOld }
        worldWithStaleInactive "myblog" "def5678").2.containers.map
        (fun c => c.id)).contains "aaaaaaaaaaaa" = true) := by
  exact ⟨⟨rfl, rfl, rfl, rfl⟩, by decide, by decide⟩

/-! ### C7 -/

/-- C7 counterexample.  The claim says checkout tolerates a dirty
working tree by forcing a clean state, succeeding for every repository
with local modifications.  The source builds CheckoutOptions with
Force set to false, so go-git refuses the checkout of a dirty worktree
with the unstaged-changes error. -/
theorem C7_counterexample_dirty_checkout_fails :
    CheckoutCommit { revs := [("abc1234", abcHash)], dirty := true, head := "oldhead" }
        "abc1234"
      = .error "worktree contains unstaged changes" := by
  decide

/-- C7 amended: CheckoutCommit performs a detached checkout at the
resolved commit, but with Force disabled: on a clean worktree it
succeeds and leaves HEAD detached at the requested commit, while on a
worktree with local modifications it fails with the unstaged-changes
error instead of forcing a clean state. -/
theorem C7_amended_checkout_detached_not_forced (repo : GitRepo) (rev h : String)
    (hres : resolveRevision repo rev = some h) :
    (repo.dirty = false →
      CheckoutCommit repo rev = .ok { repo with head := h, detachedHead := true }) ∧
    (repo.dirty = true →
      CheckoutCommit repo rev = .error "worktree contains unstaged changes") := by
  constructor <;> intro hd <;>
    simp [CheckoutCommit, worktreeCheckout, hres, hd]

/-- Witness for C7 amended: a clean repository checks out detached at
the commit that main resolves to. -/
theorem C7_amended_checkout_witness :
    CheckoutCommit { revs := [("main", abcHash)] } "main"
      = .ok { revs := [("main", abcHash)], head := abcHash, detachedHead := true } :=
  (C7_amended_checkout_detached_not_forced
    { revs := [("main", abcHash)] } "main" abcHash (by decide)).1 rfl

/-! ### C9 -/

/-- A container that was NOT created by the current deployment attempt
but already bears the name the attempt wants. -/
def strayContainerA : DockerContainer :=
  { id := "strayidaaaaa", name := "myblog-test-blue-abc1234",
    labels := [], running := true }

/-- C9.  RunContainer, when container creation fails because the name
is already in use, inspects the pre-existing container and returns its
id TOGETHER with a non-nil error; DeployTest stores that id in
newContainerID before checking the error, so the deferred rollback
handler then stops and removes the pre-existing container even though
this deployment attempt did not create it. -/
theorem C9_name_conflict_rolls_back_preexisting_container :
    (∀ (dops : DockerOps) (w : World) (o : ContainerRunOptions)
        (existing : DockerContainer),
        w.containers.find? (fun c => c.name == o.containerName) = some existing →
        dops.inspectConflictOk = true →
        RunContainer dops w o =
          ({ id := existing.id,
             err := some ("container named " ++ o.containerName ++ " already exists") },
           w)) ∧
    ((DeployTest okDeployOps { containers := [nginxContainer, strayContainerA] }
        "myblog" "abc1234").1
       = .error "failed to run new container: container named myblog-test-blue-abc1234 already exists" ∧
     (DeployTest okDeployOps { containers := [nginxContainer, strayContainerA] }
        "myblog" "abc1234").2.containers = [nginxContainer]) := by
  refine ⟨?_, by decide, by decide⟩
  intro dops w o existing hfind hok
  unfold RunContainer
  rw [hfind]
  simp [hok]

/-- Witness for C9: the conflict branch evaluated at a concrete
pre-existing container. -/
theorem C9_name_conflict_witness :
    RunContainer {} { containers := [strayContainerA] }
        { imageName := "myblog:abc", containerName := "myblog-test-blue-abc1234",
          networkName := ReflowNetworkName, labels := [], envVars := [],
          appPort := 3000, restartPolicy := "unless-stopped" }
      = ({ id := "strayidaaaaa",
           err := some "container named myblog-test-blue-abc1234 already exists" },
         { containers := [strayContainerA] }) :=
  (C9_name_conflict_rolls_back_preexisting_container).1 {} _ _
    strayContainerA (by decide) rfl

/-! ### C10 (counterexample part) -/

/-- A container of some other tool: no reflow labels at all, but a
colliding name. -/
def strayContainerB : DockerContainer :=
  { id := "strayidbbbbb", name := "myblog-test-blue-abc1234",
    labels := [("owner", "someone-else")], running := true }

/-- C10 counterexample.  The claim concludes that purge, cleanup,
stop, start AND rollback only ever stop or remove containers carrying
the managed label.  The rollback, however, operates on the container
id RunContainer returned, which in the name-conflict case is a
pre-existing container without the managed label — and the deferred
handler removes it. -/
theorem C10_counterexample_rollback_removes_unmanaged_container :
    strayContainerB.labels.contains (LabelManaged, "true") = false ∧
    (DeployTest okDeployOps { containers := [nginxContainer, strayContainerB] }
        "myblog" "abc1234").2.containers = [nginxContainer] := by
  decide

/-! ### C4: no step of the two workflows touches deployments.log -/

theorem stopContainer_log (dops : DockerOps) (w : World) (ref : String) :
    ((StopContainer dops w ref).2).deploymentsLog = w.deploymentsLog := by
  unfold StopContainer; cases dops.stopRes ref <;> rfl

theorem removeContainer_log (dops : DockerOps) (w : World) (ref : String) :
    ((RemoveContainer dops w ref).2).deploymentsLog = w.deploymentsLog := by
  unfold RemoveContainer; cases dops.removeRes ref <;> rfl

theorem purgeOld_log (dops : DockerOps) (ds : List DockerContainer) :
    ∀ w : World, (purgeOld dops w ds).deploymentsLog = w.deploymentsLog := by
  induction ds with
  | nil => intro w; rfl
  | cons c rest ih =>
      intro w
      unfold purgeOld
      rw [ih, removeContainer_log, stopContainer_log]

theorem runContainer_log (dops : DockerOps) (w : World) (o : ContainerRunOptions) :
    ((RunContainer dops w o).2).deploymentsLog = w.deploymentsLog := by
  unfold RunContainer
  split
  · split <;> rfl
  · split
    · rfl
    · split
      · rfl
      · rw [removeContainer_log]

theorem writeNginxConfig_log (w : World) (p e c : String) :
    (WriteNginxConfig w p e c).deploymentsLog = w.deploymentsLog := rfl

theorem deployStageFinish_log (ops : DeployOps) (pc : ProjectConfig)
    (ps : ProjectState) (g : GlobalConfig) (pn ch sl cn id : String) (w3 : World) :
    (deployStageFinish ops pc ps g pn ch sl cn id w3).world.deploymentsLog
      = w3.deploymentsLog := by
  unfold deployStageFinish
  repeat' (first | split | (dsimp only; split))
  all_goals (first | rfl | simp [writeNginxConfig_log])

theorem deployStageLaunch_log (ops : DeployOps) (pc : ProjectConfig)
    (ps : ProjectState) (g : GlobalConfig) (pn ch sl : String) (w2 : World) :
    (deployStageLaunch ops pc ps g pn ch sl w2).world.deploymentsLog
      = w2.deploymentsLog := by
  unfold deployStageLaunch
  repeat' (first | split | (dsimp only; split))
  all_goals (first | rfl | simp [runContainer_log, deployStageFinish_log])

theorem deployStageBuild_log (ops : DeployOps) (pc : ProjectConfig)
    (ps : ProjectState) (g : GlobalConfig) (pn ch : String) (w0 : World) :
    (deployStageBuild ops pc ps g pn ch w0).world.deploymentsLog
      = w0.deploymentsLog := by
  unfold deployStageBuild
  repeat' (first | split | (dsimp only; split))
  all_goals (first | rfl | simp [purgeOld_log, deployStageLaunch_log])

theorem deployTestBody_log (ops : DeployOps) (w : World) (p c : String) :
    (DeployTestBody ops w p c).world.deploymentsLog = w.deploymentsLog := by
  unfold DeployTestBody
  repeat' (first | split | (dsimp only; split))
  all_goals (first | rfl | simp [deployStageBuild_log])

theorem deployDefer_log (dops : DockerOps) (o : DeployBodyOut) :
    (deployDefer dops o).deploymentsLog = o.world.deploymentsLog := by
  unfold deployDefer
  repeat' (first | split | (dsimp only; split))
  all_goals (first | rfl | simp [stopContainer_log, removeContainer_log])

theorem approveStageFinish_log (ops : ApproveOps) (pc : ProjectConfig)
    (ps : ProjectState) (g : GlobalConfig) (pn ch sl cn id : String) (w3 : World) :
    (approveStageFinish ops pc ps g pn ch sl cn id w3).world.deploymentsLog
      = w3.deploymentsLog := by
  unfold approveStageFinish
  repeat' (first | split | (dsimp only; split))
  all_goals (first | rfl | simp [writeNginxConfig_log])

theorem approveStageLaunch_log (ops : ApproveOps) (pc : ProjectConfig)
    (ps : ProjectState) (g : GlobalConfig) (pn ch sl : String) (w2 : World) :
    (approveStageLaunch ops pc ps g pn ch sl w2).world.deploymentsLog
      = w2.deploymentsLog := by
  unfold approveStageLaunch
  repeat' (first | split | (dsimp only; split))
  all_goals (first | rfl | simp [runContainer_log, approveStageFinish_log])

theorem approveProdBody_log (ops : ApproveOps) (w : World) (p : String) :
    (ApproveProdBody ops w p).world.deploymentsLog = w.deploymentsLog := by
  unfold ApproveProdBody
  repeat' (first | split | (dsimp only; split))
  all_goals (first | rfl | simp [purgeOld_log, approveStageLaunch_log])

/-- C4.  The claim (from the spec): every deploy/approve invocation
appends at least one newline-terminated NDJSON line to deployments.log
whose outcome reflects the terminal state.  The code diverges:
deployment.LogEvent — embedded below exactly as the appender it is —
is never called by AddDeployCommand, AddApproveCommand, DeployTest,
ApproveProd, or the HTTP handlers, so the audit log is unchanged by
every deploy and approve run, successful or failed. -/
theorem C4_deploy_and_approve_never_touch_audit_log :
    (∀ (ops : DeployOps) (w : World) (p c : String),
        ((deployCommandRun ops w p c).2).deploymentsLog = w.deploymentsLog) ∧
    (∀ (ops : ApproveOps) (w : World) (p : String),
        ((approveCommandRun ops w p).2).deploymentsLog = w.deploymentsLog) ∧
    (∀ (w : World) (e : DeploymentEvent),
        (LogEvent w e).deploymentsLog = w.deploymentsLog ++ [serializeEvent e ++ "\n"]) := by
  refine ⟨fun ops w p c => ?_, fun ops w p => ?_, fun w e => rfl⟩
  · show ((DeployTest ops w p c).2).deploymentsLog = w.deploymentsLog
    unfold DeployTest
    rw [deployDefer_log, deployTestBody_log]
  · show ((ApproveProd ops w p).2).deploymentsLog = w.deploymentsLog
    unfold ApproveProd
    rw [deployDefer_log, approveProdBody_log]

/-! ### C8: the slot toggle law -/

/-- The project state DeployTest works with after step 1 (a load
failure is tolerated and means empty state). -/
def deployLoadedState (ops : DeployOps) (w : World) : ProjectState :=
  if ops.stateLoadFails then {} else w.stateFile.getD {}

/-- The per-environment states produced by a sequence of successful
deployments with the given commits. -/
def deployTrace (s0 : EnvironmentState) : List String → List EnvironmentState
  | [] => []
  | c :: rest =>
      deploySuccessStep c s0 :: deployTrace (deploySuccessStep c s0) rest

theorem chooseInactiveSlot_ne (s : String) : chooseInactiveSlot s ≠ s := by
  by_cases h : s = "blue"
  · subst h; decide
  · have hb : chooseInactiveSlot s = "blue" := by
      unfold chooseInactiveSlot
      rw [if_neg]
      simpa using h
    rw [hb]
    exact fun hc => h hc.symm

theorem deployTrace_chain (s0 : EnvironmentState) (cs : List String) :
    List.Chain'
      (fun a b => b.activeSlot = chooseInactiveSlot a.activeSlot ∧
                  b.activeSlot ≠ a.activeSlot)
      (s0 :: deployTrace s0 cs) := by
  induction cs generalizing s0 with
  | nil => simp [deployTrace]
  | cons c rest ih =>
      exact List.chain'_cons.mpr ⟨⟨rfl, chooseInactiveSlot_ne _⟩, ih _⟩

theorem deployStageFinish_success_state (ops : DeployOps) (pc : ProjectConfig)
    (ps : ProjectState) (g : GlobalConfig) (pn ch sl cn id : String) (w3 : World)
    (h : (deployStageFinish ops pc ps g pn ch sl cn id w3).result = .ok ()) :
    (deployStageFinish ops pc ps g pn ch sl cn id w3).world.stateFile
      = some { ps with test := { activeSlot := sl, activeCommit := ch,
                                 inactiveSlot := chooseInactiveSlot sl,
                                 pendingCommit := "" } } := by
  revert h
  unfold deployStageFinish
  repeat' (first | split | (dsimp only; split))
  all_goals intro h
  all_goals simp_all

theorem deployStageLaunch_success_state (ops : DeployOps) (pc : ProjectConfig)
    (ps : ProjectState) (g : GlobalConfig) (pn ch sl : String) (w2 : World)
    (h : (deployStageLaunch ops pc ps g pn ch sl w2).result = .ok ()) :
    (deployStageLaunch ops pc ps g pn ch sl w2).world.stateFile
      = some { ps with test := { activeSlot := sl, activeCommit := ch,
                                 inactiveSlot := chooseInactiveSlot sl,
                                 pendingCommit := "" } } := by
  revert h
  unfold deployStageLaunch
  repeat' (first | split | (dsimp only; split))
  all_goals intro h
  all_goals first
    | exact deployStageFinish_success_state _ _ _ _ _ _ _ _ _ _ h
    | simp_all

theorem deployStageBuild_success_state (ops : DeployOps) (pc : ProjectConfig)
    (ps : ProjectState) (g : GlobalConfig) (pn ch : String) (w0 : World)
    (h : (deployStageBuild ops pc ps g pn ch w0).result = .ok ()) :
    (deployStageBuild ops pc ps g pn ch w0).world.stateFile
      = some { ps with test := deploySuccessStep ch ps.test } := by
  revert h
  unfold deployStageBuild
  repeat' (first | split | (dsimp only; split))
  all_goals intro h
  all_goals first
    | exact deployStageLaunch_success_state _ _ _ _ _ _ _ _ h
    | simp_all

theorem deployTestBody_success_state (ops : DeployOps) (w : World) (p c : String)
    (h : (DeployTestBody ops w p c).result = .ok ()) :
    (DeployTestBody ops w p c).world.stateFile
      = some { deployLoadedState ops w with
               test := deploySuccessStep (ops.resolveHash.getD "")
                         (deployLoadedState ops w).test } := by
  revert h
  unfold DeployTestBody deployLoadedState
  repeat' (first | split | (dsimp only; split))
  all_goals intro h
  all_goals first
    | (rw [deployStageBuild_success_state _ _ _ _ _ _ _ h]; try simp_all)
    | simp_all

theorem deployDefer_stateFile_of_ok (dops : DockerOps) (o : DeployBodyOut)
    (h : o.result = .ok ()) :
    (deployDefer dops o).stateFile = o.world.stateFile := by
  unfold deployDefer
  rw [h]
  repeat' (first | split | (dsimp only; split))
  all_goals (first | rfl | simp_all)

theorem approveStageFinish_success_state (ops : ApproveOps) (pc : ProjectConfig)
    (ps : ProjectState) (g : GlobalConfig) (pn ch sl cn id : String) (w3 : World)
    (h : (approveStageFinish ops pc ps g pn ch sl cn id w3).result = .ok ()) :
    (approveStageFinish ops pc ps g pn ch sl cn id w3).world.stateFile
      = some { ps with prod := { activeSlot := sl, activeCommit := ch,
                                 inactiveSlot := chooseInactiveSlot sl,
                                 pendingCommit := "" } } := by
  revert h
  unfold approveStageFinish
  repeat' (first | split | (dsimp only; split))
  all_goals intro h
  all_goals simp_all

theorem approveStageLaunch_success_state (ops : ApproveOps) (pc : ProjectConfig)
    (ps : ProjectState) (g : GlobalConfig) (pn ch sl : String) (w2 : World)
    (h : (approveStageLaunch ops pc ps g pn ch sl w2).result = .ok ()) :
    (approveStageLaunch ops pc ps g pn ch sl w2).world.stateFile
      = some { ps with prod := { activeSlot := sl, activeCommit := ch,
                                 inactiveSlot := chooseInactiveSlot sl,
                                 pendingCommit := "" } } := by
  revert h
  unfold approveStageLaunch
  repeat' (first | split | (dsimp only; split))
  all_goals intro h
  all_goals first
    | exact approveStageFinish_success_state _ _ _ _ _ _ _ _ _ _ h
    | simp_all

theorem approveProdBody_success_state (ops : ApproveOps) (w : World) (p : String)
    (h : (ApproveProdBody ops w p).result = .ok ()) :
    (ApproveProdBody ops w p).world.stateFile
      = some { (w.stateFile.getD {}) with
               prod := deploySuccessStep (w.stateFile.getD {}).test.activeCommit
                         (w.stateFile.getD {}).prod } := by
  revert h
  unfold ApproveProdBody
  repeat' (first | split | (dsimp only; split))
  all_goals intro h
  all_goals first
    | exact approveStageLaunch_success_state _ _ _ _ _ _ _ _ h
    | simp_all

/-- C8.  The slot toggle law: a successful DeployTest makes the
staging active slot the chosen inactive slot (the opposite of the
previously recorded one), a successful ApproveProd does the same for
prod, and along any sequence of successful deployments from any
starting state the active slot strictly alternates. -/
theorem C8_slot_toggle_law :
    (∀ (ops : DeployOps) (w : World) (p c : String),
        (DeployTest ops w p c).1 = .ok () →
        ((DeployTest ops w p c).2.stateFile.getD {}).test
            = deploySuccessStep (ops.resolveHash.getD "")
                (deployLoadedState ops w).test ∧
        ((DeployTest ops w p c).2.stateFile.getD {}).test.activeSlot
            ≠ (deployLoadedState ops w).test.activeSlot) ∧
    (∀ (ops : ApproveOps) (w : World) (p : String),
        (ApproveProd ops w p).1 = .ok () →
        ((ApproveProd ops w p).2.stateFile.getD {}).prod
            = deploySuccessStep (w.stateFile.getD {}).test.activeCommit
                (w.stateFile.getD {}).prod ∧
        ((ApproveProd ops w p).2.stateFile.getD {}).prod.activeSlot
            ≠ (w.stateFile.getD {}).prod.activeSlot) ∧
    (∀ (s0 : EnvironmentState) (cs : List String),
        List.Chain'
          (fun a b => b.activeSlot = chooseInactiveSlot a.activeSlot ∧
                      b.activeSlot ≠ a.activeSlot)
          (s0 :: deployTrace s0 cs)) := by
  refine ⟨fun ops w p c h => ?_, fun ops w p h => ?_, deployTrace_chain⟩
  · have hbody : (DeployTestBody ops w p c).result = .ok () := h
    have hst : (DeployTest ops w p c).2.stateFile
        = some { deployLoadedState ops w with
                 test := deploySuccessStep (ops.resolveHash.getD "")
                           (deployLoadedState ops w).test } := by
      show (deployDefer ops.docker (DeployTestBody ops w p c)).stateFile = _
      rw [deployDefer_stateFile_of_ok _ _ hbody,
          deployTestBody_success_state _ _ _ _ hbody]
    rw [hst]
    exact ⟨rfl, chooseInactiveSlot_ne _⟩
  · have hbody : (ApproveProdBody ops w p).result = .ok () := h
    have hst : (ApproveProd ops w p).2.stateFile
        = some { (w.stateFile.getD {}) with
                 prod := deploySuccessStep (w.stateFile.getD {}).test.activeCommit
                           (w.stateFile.getD {}).prod } := by
      show (deployDefer ops.docker (ApproveProdBody ops w p)).stateFile = _
      rw [deployDefer_stateFile_of_ok _ _ hbody,
          approveProdBody_success_state _ _ _ hbody]
    rw [hst]
    exact ⟨rfl, chooseInactiveSlot_ne _⟩

/-- Witness for C8: the toggle evaluated on the concrete first
deployment. -/
theorem C8_slot_toggle_law_witness :
    ((DeployTest okDeployOps initialWorld "myblog" "abc1234").2.stateFile.getD {}).test
      = deploySuccessStep (okDeployOps.resolveHash.getD "")
          (deployLoadedState okDeployOps initialWorld).test :=
  ((C8_slot_toggle_law).1 okDeployOps initialWorld "myblog" "abc1234" (by decide)).1

/-! ### C10: the managed-label discipline of the label-driven loops -/

/-- A container carrying the reflow.managed=true label. -/
def isManaged (c : DockerContainer) : Bool :=
  c.labels.contains (LabelManaged, "true")

theorem mem_stopContainer_of_not_ref (dops : DockerOps) (w : World) (ref : String)
    (c : DockerContainer) (hc : c ∈ w.containers) (h : refMatches ref c = false) :
    c ∈ (StopContainer dops w ref).2.containers := by
  unfold StopContainer
  cases dops.stopRes ref
  · exact List.mem_map.mpr ⟨c, hc, by simp [h]⟩
  · exact hc
  · exact hc

theorem mem_startContainer_of_not_ref (dops : DockerOps) (w : World) (ref : String)
    (c : DockerContainer) (hc : c ∈ w.containers) (h : refMatches ref c = false) :
    c ∈ (StartContainer dops w ref).2.containers := by
  unfold StartContainer
  cases dops.startRes ref
  · exact List.mem_map.mpr ⟨c, hc, by simp [h]⟩
  · exact hc
  · exact hc

theorem mem_removeContainer_of_not_ref (dops : DockerOps) (w : World) (ref : String)
    (c : DockerContainer) (hc : c ∈ w.containers) (h : refMatches ref c = false) :
    c ∈ (RemoveContainer dops w ref).2.containers := by
  unfold RemoveContainer
  cases dops.removeRes ref
  · exact List.mem_filter.mpr ⟨hc, by simp [h]⟩
  · exact hc
  · exact hc

theorem mem_purgeOld_of_no_ref (dops : DockerOps) (ds : List DockerContainer)
    (c : DockerContainer) (h : ∀ d ∈ ds, refMatches d.id c = false) :
    ∀ w : World, c ∈ w.containers → c ∈ (purgeOld dops w ds).containers := by
  induction ds with
  | nil => intro w hc; exact hc
  | cons d rest ih =>
      intro w hc
      unfold purgeOld
      exact ih (fun x hx => h x (List.mem_cons_of_mem _ hx)) _
        (mem_removeContainer_of_not_ref _ _ _ _
          (mem_stopContainer_of_not_ref _ _ _ _ hc (h d (List.mem_cons_self _ _)))
          (h d (List.mem_cons_self _ _)))

theorem mem_cleanupLoop_of_no_ref (dops : DockerOps) (aSlot aCommit : String)
    (ds : List DockerContainer) (c : DockerContainer)
    (h : ∀ d ∈ ds, refMatches d.id c = false) :
    ∀ w : World, c ∈ w.containers →
      c ∈ (cleanupLoop dops aSlot aCommit w ds).1.containers := by
  induction ds with
  | nil => intro w hc; exact hc
  | cons d rest ih =>
      intro w hc
      unfold cleanupLoop
      have hd := h d (List.mem_cons_self _ _)
      have hrest := fun x hx => h x (List.mem_cons_of_mem _ hx)
      have hmem := mem_removeContainer_of_not_ref dops (StopContainer dops w d.id).2 d.id c
        (mem_stopContainer_of_not_ref _ _ _ _ hc hd) hd
      dsimp only
      split
      · try dsimp only
        split
        · exact ih hrest _ hmem
        · exact ih hrest _ hmem
      · exact ih hrest _ hc

theorem mem_stopLoop_of_no_ref (dops : DockerOps) (ds : List DockerContainer)
    (c : DockerContainer) (h : ∀ d ∈ ds, refMatches d.id c = false) :
    ∀ w : World, c ∈ w.containers → c ∈ (stopLoop dops w ds).1.containers := by
  induction ds with
  | nil => intro w hc; exact hc
  | cons d rest ih =>
      intro w hc
      unfold stopLoop
      have hd := h d (List.mem_cons_self _ _)
      have hrest := fun x hx => h x (List.mem_cons_of_mem _ hx)
      dsimp only
      split
      · exact ih hrest _ (mem_stopContainer_of_not_ref _ _ _ _ hc hd)
      · exact ih hrest _ (mem_stopContainer_of_not_ref _ _ _ _ hc hd)

theorem mem_startLoop_of_no_ref (dops : DockerOps) (ds : List DockerContainer)
    (c : DockerContainer) (h : ∀ d ∈ ds, refMatches d.id c = false) :
    ∀ w : World, c ∈ w.containers → c ∈ (startLoop dops w ds).1.containers := by
  induction ds with
  | nil => intro w hc; exact hc
  | cons d rest ih =>
      intro w hc
      unfold startLoop
      have hd := h d (List.mem_cons_self _ _)
      have hrest := fun x hx => h x (List.mem_cons_of_mem _ hx)
      dsimp only
      split
      · exact ih hrest _ hc
      · try dsimp only
        split
        · exact ih hrest _ (mem_startContainer_of_not_ref _ _ _ _ hc hd)
        · exact ih hrest _ (mem_startContainer_of_not_ref _ _ _ _ hc hd)

theorem findContainers_sound (dops : DockerOps) (w : World)
    (ls : List (String × String)) (cs : List DockerContainer)
    (h : FindContainersByLabels dops w ls = .ok cs) :
    ∀ c ∈ cs, c ∈ w.containers ∧ isManaged c = true := by
  unfold FindContainersByLabels at h
  split at h
  · cases h
    intro c hcmem
    have hm := List.mem_filter.mp hcmem
    have hm2 := hm.2
    simp only [Bool.and_eq_true] at hm2
    exact ⟨hm.1, hm2.2⟩
  · cases h

theorem no_ref_of_unmanaged (w : World) (cs : List DockerContainer)
    (c : DockerContainer)
    (hfound : ∀ d ∈ cs, d ∈ w.containers ∧ isManaged d = true)
    (hunm : isManaged c = false)
    (huniq : ∀ d ∈ w.containers, refMatches d.id c = true → d = c) :
    ∀ d ∈ cs, refMatches d.id c = false := by
  intro d hd
  cases hrm : refMatches d.id c with
  | false => rfl
  | true =>
      have hdc := huniq d (hfound d hd).1 hrm
      have hmng := (hfound d hd).2
      rw [hdc] at hmng
      rw [hmng] at hunm
      cases hunm

theorem cleanupProjectEnv_preserves_unmanaged (ops : CleanupOps) (w : World)
    (pn env : String) (c : DockerContainer) (hc : c ∈ w.containers)
    (hunm : isManaged c = false)
    (huniq : ∀ d ∈ w.containers, refMatches d.id c = true → d = c) :
    c ∈ (CleanupProjectEnv ops w pn env).2.containers  := by
  unfold CleanupProjectEnv
  repeat' (first | split | (dsimp only; split))
  all_goals first
    | exact hc
    | exact mem_cleanupLoop_of_no_ref _ _ _ _ _
        (no_ref_of_unmanaged _ _ _ (findContainers_sound _ _ _ _ (by assumption)) hunm huniq)
        _ hc

theorem stopProjectEnv_preserves_unmanaged (ops : CleanupOps) (w : World)
    (pn env : String) (c : DockerContainer) (hc : c ∈ w.containers)
    (hunm : isManaged c = false)
    (huniq : ∀ d ∈ w.containers, refMatches d.id c = true → d = c) :
    c ∈ (StopProjectEnv ops w pn env).2.containers  := by
  unfold StopProjectEnv
  repeat' (first | split | (dsimp only; split))
  all_goals first
    | exact hc
    | exact mem_stopLoop_of_no_ref _ _ _
        (no_ref_of_unmanaged _ _ _ (findContainers_sound _ _ _ _ (by assumption)) hunm huniq)
        _ hc

theorem startProjectEnv_preserves_unmanaged (ops : CleanupOps) (w : World)
    (pn env : String) (c : DockerContainer) (hc : c ∈ w.containers)
    (hunm : isManaged c = false)
    (huniq : ∀ d ∈ w.containers, refMatches d.id c = true → d = c) :
    c ∈ (StartProjectEnv ops w pn env).2.containers  := by
  unfold StartProjectEnv
  repeat' (first | split | (dsimp only; split))
  all_goals first
    | exact hc
    | exact mem_startLoop_of_no_ref _ _ _
        (no_ref_of_unmanaged _ _ _ (findContainers_sound _ _ _ _ (by assumption)) hunm huniq)
        _ hc

/-- C10 amended: every label-based container query of the workflows
goes through FindContainersByLabels, which adds reflow.managed=true to
the caller's filter, so its results carry the managed label; as a
consequence the purge loop of Deploy/Approve and the cleanup, stop and
start operations never stop, start or remove a container that lacks
the managed label (any such container survives unchanged), assuming
the docker invariant that ids are unique and no name collides with
another container's id.  The deferred ROLLBACK, however, is excluded
from this discipline: it addresses the container id returned by
RunContainer, which in the name-conflict case is a pre-existing
container without the managed label (see the counterexample). -/
theorem C10_amended_managed_label_discipline :
    (∀ (dops : DockerOps) (w : World) (ls : List (String × String))
        (cs : List DockerContainer),
        FindContainersByLabels dops w ls = .ok cs →
        ∀ c ∈ cs, isManaged c = true) ∧
    (∀ (dops : DockerOps) (w : World) (ls : List (String × String))
        (cs : List DockerContainer) (c : DockerContainer),
        FindContainersByLabels dops w ls = .ok cs →
        c ∈ w.containers → isManaged c = false →
        (∀ d ∈ w.containers, refMatches d.id c = true → d = c) →
        c ∈ (purgeOld dops w cs).containers) ∧
    (∀ (ops : CleanupOps) (w : World) (pn env : String) (c : DockerContainer),
        c ∈ w.containers → isManaged c = false →
        (∀ d ∈ w.containers, refMatches d.id c = true → d = c) →
        c ∈ (CleanupProjectEnv ops w pn env).2.containers) ∧
    (∀ (ops : CleanupOps) (w : World) (pn env : String) (c : DockerContainer),
        c ∈ w.containers → isManaged c = false →
        (∀ d ∈ w.containers, refMatches d.id c = true → d = c) →
        c ∈ (StopProjectEnv ops w pn env).2.containers) ∧
    (∀ (ops : CleanupOps) (w : World) (pn env : String) (c : DockerContainer),
        c ∈ w.containers → isManaged c = false →
        (∀ d ∈ w.containers, refMatches d.id c = true → d = c) →
        c ∈ (StartProjectEnv ops w pn env).2.containers) := by
  refine ⟨?_, ?_, ?_, ?_, ?_⟩
  · intro dops w ls cs h c hcmem
    exact (findContainers_sound _ _ _ _ h c hcmem).2
  · intro dops w ls cs c h hc hunm huniq
    exact mem_purgeOld_of_no_ref _ _ _
      (no_ref_of_unmanaged _ _ _ (findContainers_sound _ _ _ _ h) hunm huniq) _ hc
  · intro ops w pn env c hc hunm huniq
    exact cleanupProjectEnv_preserves_unmanaged _ _ _ _ _ hc hunm huniq
  · intro ops w pn env c hc hunm huniq
    exact stopProjectEnv_preserves_unmanaged _ _ _ _ _ hc hunm huniq
  · intro ops w pn env c hc hunm huniq
    exact startProjectEnv_preserves_unmanaged _ _ _ _ _ hc hunm huniq

/-- Witness for C10 amended: a labelless container in a world on which
Cleanup runs survives the cleanup untouched. -/
theorem C10_amended_witness :
    strayContainerB ∈ (CleanupProjectEnv {}
      { containers := [nginxContainer, prevBlueContainer, strayContainerB],
        stateFile := some stateActiveBlue } "myblog" "test").2.containers :=
  (C10_amended_managed_label_discipline).2.2.1 {}
    { containers := [nginxContainer, prevBlueContainer, strayContainerB],
      stateFile := some stateActiveBlue } "myblog" "test" strayContainerB
    (by decide) (by decide) (by decide)

end Reflow
